import Mathlib

/-!
Shallow embedding of the Smart Parking Management System (src/main.py)
and verification of its specification claims.

Modelling conventions:
* NGSI-LD attributes arrive either absent, wrapped as `{value: X}`, or plain;
  after `get_clean_value` both readable shapes yield the value, so an attribute
  is embedded as `Option α` with `none` standing for "absent or unreadable".
* HTTP calls to the external context broker are suspension points whose
  outcomes are passed in explicitly (`FetchResult`, `ReadResult`,
  `PatchResult`, status codes), so each endpoint becomes a pure function of
  the request and the broker's responses.
* An endpoint that lets a Python exception escape (KeyError / TypeError)
  is embedded as returning a dedicated `crash` outcome.
-/

/-- A `location` value: the dict under the NGSI-LD `value`;
`coordinates` is `none` when the dict has no `coordinates` key
(Python `dict.get` returns `None`). -/
structure Loc where
  coordinates : Option (List Int)
deriving DecidableEq

/-- A spot entity as read from the store, attributes already unwrapped.
`none` on a field means the attribute is absent or unreadable. -/
structure Spot where
  id : String
  status : Option String
  category : Option (List String)
  location : Option Loc
  spotNumber : Option String
deriving DecidableEq

/-- `get_clean_value` (src/main.py lines 19-27): absent or unreadable
attributes give `None`; a wrapped `{value: X}` or a plain value give the
value. On the already-unwrapped embedding it is the identity on `Option`. -/
def get_clean_value {α : Type} : Option α → Option α
  | none => none
  | some v => some v

/-- The three independent boolean constraints of a booking request
(src/main.py lines 14-17). -/
structure BookingRequest where
  requires_disabled : Bool
  requires_female : Bool
  requires_ev : Bool
deriving DecidableEq

/-- Weight of a spot (src/main.py lines 99-109): the count of the special
category tags present on the spot. -/
def spotWeight (cats : List String) : Nat :=
  (if cats.contains "forElectricCharging" then 1 else 0) +
  (if cats.contains "forDisabled" then 1 else 0) +
  (if cats.contains "forWomen" then 1 else 0)

/-- The eligibility test of the matching loop (src/main.py lines 100-126):
`is_match` stays `True` iff every requested tag is present and, for a
generic request (neither disabled nor female required), the spot carries
neither reserved tag. -/
def isMatch (prefs : BookingRequest) (cats : List String) : Bool :=
  (!prefs.requires_ev || cats.contains "forElectricCharging") &&
  (!prefs.requires_disabled || cats.contains "forDisabled") &&
  (!prefs.requires_female || cats.contains "forWomen") &&
  (prefs.requires_disabled || prefs.requires_female ||
    (!(cats.contains "forDisabled") && !(cats.contains "forWomen")))

/-- The scan of `find_parking_spot` (src/main.py lines 89-129): builds
`suitable_spots` as (spot, weight) pairs in iteration order.  A spot whose
cleaned `status` is not the string "free" is skipped.  A free spot whose
cleaned `category` is `None` reaches `"forElectricCharging" in categories`
on `None` and raises TypeError, aborting the whole pass: embedded as
`Except.error ()`. -/
def scanSpots (prefs : BookingRequest) : List Spot → Except Unit (List (Spot × Nat))
  | [] => Except.ok []
  | spot :: rest =>
    match get_clean_value spot.status with
    | none => scanSpots prefs rest
    | some st =>
      if st = "free" then
        match get_clean_value spot.category with
        | none => Except.error ()
        | some cats =>
          match scanSpots prefs rest with
          | Except.error e => Except.error e
          | Except.ok tl =>
            Except.ok (if isMatch prefs cats then (spot, spotWeight cats) :: tl else tl)
      else scanSpots prefs rest

/-- The selection loop of `find_parking_spot` (src/main.py lines 136-142):
`min_weight` starts at infinity, so the first element is always adopted;
afterwards only a strictly smaller weight replaces the running best, so the
first element achieving the minimum wins. -/
def selectBestAux : Option (Spot × Nat) → List (Spot × Nat) → Option (Spot × Nat)
  | best, [] => best
  | none, p :: rest => selectBestAux (some p) rest
  | some (b, mw), (s, w) :: rest =>
    if w < mw then selectBestAux (some (s, w)) rest else selectBestAux (some (b, mw)) rest

/-- Outcome of one GET against the broker returning a value of type `α`:
any exception (connection failure, or `raise_for_status` on a non-2xx)
lands in the `except Exception` arm of the endpoint, embedded `connError`. -/
inductive FetchResult (α : Type)
  | connError
  | ok (data : α)
deriving DecidableEq

/-- Result of the `/find-spot` endpoint.  `success` carries the selected
spot entity (from which the response fields `assigned_spot_id` and
`spot_number` are read off) and the reported `coordinates` value, which is
`some [0,0]` when the spot's `location` is absent, and the location's
(possibly `none`) `coordinates` otherwise. -/
inductive FindOutcome
  | fetchError
  | noSpots
  | crash
  | success (spot : Spot) (coordinates : Option (List Int))
deriving DecidableEq

/-- `find_parking_spot` (src/main.py lines 70-154) as a function of the
broker's response to `GET ?type=SmartIndoorParkingSpot` and the request. -/
def find_parking_spot (fetch : FetchResult (List Spot)) (prefs : BookingRequest) :
    FindOutcome :=
  match fetch with
  | FetchResult.connError => FindOutcome.fetchError
  | FetchResult.ok all_spots =>
    match scanSpots prefs all_spots with
    | Except.error _ => FindOutcome.crash
    | Except.ok suitable =>
      match selectBestAux none suitable with
      | none => FindOutcome.noSpots
      | some (best, _) =>
        FindOutcome.success best
          (match get_clean_value best.location with
           | none => some [0, 0]
           | some loc => loc.coordinates)

/-- Outcome of the broker's response to the `GET /entities/{id}` re-read in
`book_parking_spot`: a connection failure and a 404 both raise inside the
`try` and land in the generic `except Exception` arm. -/
inductive ReadResult
  | connError
  | notFound
  | found (spot : Spot)
deriving DecidableEq

/-- Outcome of the PATCH `status=occupied` request as seen by the endpoint:
`ok` (2xx), `httpError` (`raise_for_status` raised `HTTPError`, i.e. the
store rejected the update with a 4xx/5xx status), or `connError`
(any other exception). -/
inductive PatchResult
  | ok
  | httpError
  | connError
deriving DecidableEq

/-- The payload handed to `ConnectionManager.send_coordinates`
(src/main.py lines 44-49), timestamp omitted. -/
structure DispatchEvent where
  spot_id : String
  coordinates : List Int
deriving DecidableEq

/-- Result of the `/book-spot` endpoint.  `readError` is the HTTP 500
"Could not connect to FIWARE" raised for any failing re-read (including a
404 from the store); `crash` is the unhandled KeyError from
`response['location']['value']['coordinates']`; `patchRejected` is the
HTTP 400 raised on `HTTPError`; `patchConnError` the HTTP 500 raised on
any other PATCH exception. -/
inductive BookOutcome
  | readError
  | crash
  | patchRejected
  | patchConnError
  | success
deriving DecidableEq

/-- `book_parking_spot` (src/main.py lines 159-216) as a function of the
broker's responses.  The second component is the list of dispatch events
handed to `manager.send_coordinates`: the code reaches that call only after
`response.raise_for_status()` on the PATCH returned normally, so a
non-empty broadcast list certifies a store-confirmed occupied-write that
happened strictly before it. -/
def book_parking_spot (spotId : String) (read : ReadResult) (patch : PatchResult) :
    BookOutcome × List DispatchEvent :=
  match read with
  | ReadResult.connError => (BookOutcome.readError, [])
  | ReadResult.notFound => (BookOutcome.readError, [])
  | ReadResult.found spot =>
    match spot.location with
    | none => (BookOutcome.crash, [])
    | some loc =>
      match loc.coordinates with
      | none => (BookOutcome.crash, [])
      | some coords =>
        match patch with
        | PatchResult.httpError => (BookOutcome.patchRejected, [])
        | PatchResult.connError => (BookOutcome.patchConnError, [])
        | PatchResult.ok => (BookOutcome.success, [⟨spotId, coords⟩])

/-- The external store's entities, keyed by id. -/
abbrev EntityStore := List (String × Spot)

/-- `GET /entities/{id}` against the modelled store: first entry wins. -/
def storeGet : EntityStore → String → Option Spot
  | [], _ => none
  | (i, s) :: rest, sid => if i = sid then some s else storeGet rest sid

/-- Overwrite the `status` attribute of the first entity with this id. -/
def storeSetStatus : EntityStore → String → String → EntityStore
  | [], _, _ => []
  | (i, s) :: rest, sid, st =>
    if i = sid then (i, { s with status := some st }) :: rest
    else (i, s) :: storeSetStatus rest sid st

/-- Modelled from the spec: the external context broker's handling of the
PATCH setting `status=occupied` (spec §4.2 step 4, §5, §6) — the broker's
own code is not part of this repository.  The write is accepted (2xx) only
when the entity exists and its current status is `free`; a write against a
not-free spot is rejected with a 4xx (`ConflictOrRejected`), and an unknown
id yields a 404; rejected writes leave the store unchanged. -/
def storePatchOccupied (store : EntityStore) (spotId : String) :
    PatchResult × EntityStore :=
  match storeGet store spotId with
  | none => (PatchResult.httpError, store)
  | some s =>
    if get_clean_value s.status = some "free" then
      (PatchResult.ok, storeSetStatus store spotId "occupied")
    else (PatchResult.httpError, store)

/-- `book_parking_spot` run against the modelled store: the re-read feeds the
endpoint, and the PATCH (hence any store mutation) is issued only if the
code survives the coordinates extraction. -/
def bookAgainstStore (store : EntityStore) (spotId : String) :
    (BookOutcome × List DispatchEvent) × EntityStore :=
  match storeGet store spotId with
  | none => ((BookOutcome.readError, []), store)
  | some spot =>
    match spot.location with
    | none => ((BookOutcome.crash, []), store)
    | some loc =>
      match loc.coordinates with
      | none => ((BookOutcome.crash, []), store)
      | some _ =>
        match storePatchOccupied store spotId with
        | (pr, store1) => (book_parking_spot spotId (ReadResult.found spot) pr, store1)

/-- The registry of machine connections (src/main.py lines 29-53),
connections named by an identifier. -/
structure ConnectionManager where
  active_connections : List String
deriving DecidableEq

/-- `ConnectionManager.disconnect` (src/main.py lines 39-40): Python
`list.remove` drops the first occurrence. -/
def ConnectionManager.disconnect (m : ConnectionManager) (c : String) :
    ConnectionManager :=
  ⟨m.active_connections.erase c⟩

/-- The broadcast loop body: given which sends succeed, deliver in list
order until the first failing `send_json`, whose exception propagates out
of the loop.  Returns the connections that received the payload and the
connection whose send raised, if any. -/
def sendAll (sendOk : String → Bool) : List String → List String × Option String
  | [] => ([], none)
  | c :: rest =>
    if sendOk c then
      match sendAll sendOk rest with
      | (ds, err) => (c :: ds, err)
    else ([], some c)

/-- `ConnectionManager.send_coordinates` (src/main.py lines 42-51): a bare
`for` loop with no exception handling and no mutation of
`active_connections` — the returned manager is the input manager. -/
def ConnectionManager.send_coordinates (m : ConnectionManager)
    (sendOk : String → Bool) : (List String × Option String) × ConnectionManager :=
  (sendAll sendOk m.active_connections, m)

/-- The success body of `/delete-garage/{garage_id}` (src/main.py
lines 390-395). -/
structure DeleteSuccess where
  garageId : String
  deletedSpots : List String
  spotsDeletedCount : Nat
deriving DecidableEq

/-- Result of the `/delete-garage` endpoint: `queryError` is the HTTP 500
from a failing spot query; `garageError c` is the HTTPException re-raising
the garage delete's non-204 status `c`. -/
inductive DeleteOutcome
  | queryError
  | garageError (code : Nat)
  | ok (res : DeleteSuccess)
deriving DecidableEq

/-- `delete_garage` (src/main.py lines 356-398) as a function of the spot
query's outcome and the store's status codes for each DELETE.  Only spot
deletions the store answered with 204 enter `deleted_spots`; a non-204 spot
delete is skipped silently.  The second component is the set of spot ids
the store confirmed deleted — those deletions happened before the garage
delete and persist even when the final garage delete fails. -/
def delete_garage (garageId : String) (query : FetchResult (List String))
    (delStatus : String → Nat) (garageStatus : Nat) :
    DeleteOutcome × List String :=
  match query with
  | FetchResult.connError => (DeleteOutcome.queryError, [])
  | FetchResult.ok spotIds =>
    match spotIds.filter (fun sid => delStatus sid == 204) with
    | deleted =>
      if garageStatus == 204 then
        (DeleteOutcome.ok ⟨garageId, deleted, deleted.length⟩, deleted)
      else (DeleteOutcome.garageError garageStatus, deleted)

/-- Result of the `/clear-all-spots` endpoint: `done n` carries the count
interpolated into the success message `f"{len(all_spots)} Spots are now
free."`. -/
inductive ClearOutcome
  | fetchError
  | patchError
  | done (messageCount : Nat)
deriving DecidableEq

/-- The loop of `clear_parking_spot` (src/main.py lines 262-302): spots
whose cleaned status equals "free" are not patched at all; every other
spot gets a PATCH back to free, and a failing PATCH aborts the endpoint
with an HTTPException.  Returns the ids patched successfully, in order. -/
def clearLoop (patchRes : String → PatchResult) :
    List Spot → Except (List String) (List String)
  | [] => Except.ok []
  | spot :: rest =>
    if get_clean_value spot.status = some "free" then clearLoop patchRes rest
    else
      match patchRes spot.id with
      | PatchResult.ok =>
        match clearLoop patchRes rest with
        | Except.ok l => Except.ok (spot.id :: l)
        | Except.error l => Except.error (spot.id :: l)
      | _ => Except.error []

/-- `clear_parking_spot` (src/main.py lines 245-307): on completion the
success message reports `len(all_spots)`, the total number of spots the
fetch returned.  The second component is the list of spot ids actually
patched back to free. -/
def clear_parking_spot (fetch : FetchResult (List Spot))
    (patchRes : String → PatchResult) : ClearOutcome × List String :=
  match fetch with
  | FetchResult.connError => (ClearOutcome.fetchError, [])
  | FetchResult.ok all_spots =>
    match clearLoop patchRes all_spots with
    | Except.error patched => (ClearOutcome.patchError, patched)
    | Except.ok patched => (ClearOutcome.done all_spots.length, patched)

/-- `ORION_URL` (src/main.py line 12). -/
def ORION_URL : String := "http://127.0.0.1:1026/ngsi-ld/v1/entities"

/-- URL of the spot fetch in `find_parking_spot` (src/main.py line 78)
and in `clear_parking_spot` (line 253). -/
def findSpotsUrl : String := ORION_URL ++ "?type=SmartIndoorParkingSpot"

/-- URL of the re-read in `book_parking_spot` (src/main.py line 168). -/
def bookReadUrl (spotId : String) : String := ORION_URL ++ "/" ++ spotId

/-- URL of the status PATCH requests (src/main.py lines 193, 286, 329):
hardcoded with host `localhost` instead of referencing `ORION_URL`. -/
def patchAttrsUrl (spotId : String) : String :=
  "http://localhost:1026/ngsi-ld/v1/entities/" ++ spotId ++ "/attrs"

/-- URL of the garage creation POST in `create_parking_garage`
(src/main.py line 225). -/
def createGarageUrl : String := ORION_URL

/-- URL of the spot-listing query in `delete_garage` (src/main.py
line 363): `f"{ORION_URL}/entities"`. -/
def deleteGarageQueryUrl : String := ORION_URL ++ "/entities"

/-- URL of the per-spot DELETE in `delete_garage` (src/main.py line 378). -/
def deleteSpotUrl (spotId : String) : String := ORION_URL ++ "/entities/" ++ spotId

/-- URL of the garage DELETE in `delete_garage` (src/main.py line 383). -/
def deleteGarageUrl (garageId : String) : String :=
  ORION_URL ++ "/entities/" ++ garageId

/-- Whether `pat` occurs as a contiguous segment of `s`. -/
def segOccurs (pat : List Char) : List Char → Bool
  | [] => pat.isPrefixOf []
  | c :: rest => pat.isPrefixOf (c :: rest) || segOccurs pat rest

/-- Whether a URL contains the duplicated path segment `/entities/entities`. -/
def urlHasDupEntities (u : String) : Bool :=
  segOccurs "/entities/entities".data u.data

/-- Whether a URL addresses `ORION_URL` directly, i.e. starts with it. -/
def startsWithOrion (u : String) : Bool :=
  ORION_URL.data.isPrefixOf u.data

lemma storeGet_setStatus (store : EntityStore) (sid st : String) :
    storeGet (storeSetStatus store sid st) sid =
      (storeGet store sid).map (fun s => { s with status := some st }) := by
  induction store with
  | nil => rfl
  | cons hd tl ih =>
    obtain ⟨i, s⟩ := hd
    by_cases h : i = sid
    · simp [storeSetStatus, storeGet, h]
    · simp [storeSetStatus, storeGet, h, ih]

/-- C1: in `book_parking_spot`, for every spot id, a DispatchEvent is
broadcast only when the store confirmed the `status=occupied` PATCH (the
broadcast list is built strictly after the confirmed write); if the re-read
fails or the spot does not exist, the call fails with an error and nothing
is broadcast, and if the store rejects the PATCH, the call fails and
nothing is broadcast. -/
theorem book_broadcast_only_after_confirmed_write (spotId : String)
    (read : ReadResult) (patch : PatchResult) :
    ((book_parking_spot spotId read patch).2 ≠ [] →
      patch = PatchResult.ok ∧
      (book_parking_spot spotId read patch).1 = BookOutcome.success) ∧
    (read = ReadResult.connError ∨ read = ReadResult.notFound →
      book_parking_spot spotId read patch = (BookOutcome.readError, [])) ∧
    (patch = PatchResult.httpError →
      (book_parking_spot spotId read patch).2 = [] ∧
      (book_parking_spot spotId read patch).1 ≠ BookOutcome.success) := by
  cases read with
  | connError => simp [book_parking_spot]
  | notFound => simp [book_parking_spot]
  | found spot =>
    cases hl : spot.location with
    | none => simp [book_parking_spot, hl]
    | some loc =>
      cases hc : loc.coordinates with
      | none => simp [book_parking_spot, hl, hc]
      | some coords => cases patch <;> simp [book_parking_spot, hl, hc]

theorem book_broadcast_only_after_confirmed_write_witness :
    book_parking_spot "urn:S1" ReadResult.notFound PatchResult.ok =
      (BookOutcome.readError, []) :=
  (book_broadcast_only_after_confirmed_write "urn:S1" ReadResult.notFound
    PatchResult.ok).2.1 (Or.inr rfl)

/-- C2: running `book_parking_spot` twice against the store for the same
spot id, when the first call succeeded, makes the second call fail with the
HTTP 400 conflict raised on the store's rejected write, and the second call
broadcasts no DispatchEvent: only the accepted occupied-write triggered a
broadcast. -/
theorem book_twice_second_rejected_no_rebroadcast (store : EntityStore)
    (spotId : String)
    (h : (bookAgainstStore store spotId).1.1 = BookOutcome.success) :
    (bookAgainstStore (bookAgainstStore store spotId).2 spotId).1 =
      (BookOutcome.patchRejected, []) := by
  cases hget : storeGet store spotId with
  | none => simp [bookAgainstStore, hget] at h
  | some spot =>
    cases hl : spot.location with
    | none => simp [bookAgainstStore, hget, hl] at h
    | some loc =>
      cases hc : loc.coordinates with
      | none => simp [bookAgainstStore, hget, hl, hc] at h
      | some coords =>
        by_cases hs : get_clean_value spot.status = some "free"
        · have hstore1 : (bookAgainstStore store spotId).2 =
              storeSetStatus store spotId "occupied" := by
            simp [bookAgainstStore, hget, hl, hc, storePatchOccupied, hs]
          have hget2 : storeGet (storeSetStatus store spotId "occupied") spotId =
              some { spot with status := some "occupied" } := by
            rw [storeGet_setStatus, hget]; rfl
          rw [hstore1]
          simp [bookAgainstStore, hget2, hl, hc, storePatchOccupied,
            get_clean_value, book_parking_spot]
        · exfalso
          simp [bookAgainstStore, hget, hl, hc, storePatchOccupied, hs,
            book_parking_spot] at h

def spotA : Spot := ⟨"urn:A", some "free", some [], some ⟨some [1, 2]⟩, some "1"⟩

def demoStoreA : EntityStore := [("urn:A", spotA)]

theorem book_twice_second_rejected_no_rebroadcast_witness :
    (bookAgainstStore (bookAgainstStore demoStoreA "urn:A").2 "urn:A").1 =
      (BookOutcome.patchRejected, []) :=
  book_twice_second_rejected_no_rebroadcast demoStoreA "urn:A" (by decide)

lemma get_clean_value_eq {α : Type} (o : Option α) : get_clean_value o = o := by
  cases o <;> rfl

lemma selectBestAux_mem :
    ∀ (l : List (Spot × Nat)) (acc : Option (Spot × Nat)) (p : Spot × Nat),
      selectBestAux acc l = some p → acc = some p ∨ p ∈ l := by
  intro l
  induction l with
  | nil =>
    intro acc p h
    left
    simpa [selectBestAux] using h
  | cons hd tl ih =>
    intro acc p h
    cases acc with
    | none =>
      have h1 := ih (some hd) p (by simpa [selectBestAux] using h)
      rcases h1 with h1 | h1
      · right; exact (Option.some.injEq _ _ ▸ h1) ▸ List.mem_cons_self _ _
      · right; exact List.mem_cons_of_mem _ h1
    | some q =>
      obtain ⟨b, mw⟩ := q
      obtain ⟨s, w⟩ := hd
      by_cases hw : w < mw
      · have h1 := ih (some (s, w)) p (by simpa [selectBestAux, hw] using h)
        rcases h1 with h1 | h1
        · right
          have : (s, w) = p := Option.some.inj h1
          exact this ▸ List.mem_cons_self _ _
        · right; exact List.mem_cons_of_mem _ h1
      · have h1 := ih (some (b, mw)) p (by simpa [selectBestAux, hw] using h)
        rcases h1 with h1 | h1
        · left; exact h1
        · right; exact List.mem_cons_of_mem _ h1

lemma scanSpots_mem (prefs : BookingRequest) :
    ∀ (spots : List Spot) (l : List (Spot × Nat)),
      scanSpots prefs spots = Except.ok l →
      ∀ p ∈ l, p.1.status = some "free" ∧
        ∃ cats, p.1.category = some cats ∧ isMatch prefs cats = true ∧
          p.2 = spotWeight cats := by
  intro spots
  induction spots with
  | nil =>
    intro l h p hp
    simp [scanSpots] at h
    subst h
    simp at hp
  | cons spot rest ih =>
    intro l h p hp
    rw [scanSpots] at h
    simp only [get_clean_value_eq] at h
    split at h
    · exact ih l h p hp
    · rename_i st hst
      split at h
      · rename_i hfree
        split at h
        · exact absurd h (by simp)
        · rename_i cats hcat
          split at h
          · exact absurd h (by simp)
          · rename_i tl hrest
            have hl := Except.ok.inj h
            subst hfree
            by_cases hm : isMatch prefs cats = true
            · rw [if_pos hm] at hl
              subst hl
              rcases List.mem_cons.mp hp with rfl | hp2
              · exact ⟨hst, cats, hcat, hm, rfl⟩
              · exact ih tl hrest p hp2
            · rw [if_neg hm] at hl
              subst hl
              exact ih _ hrest p hp
      · exact ih l h p hp

/-- C3: any spot returned by `find_parking_spot` has status `free`, carries
`forElectricCharging` when `requires_ev` holds, `forDisabled` when
`requires_disabled` holds, `forWomen` when `requires_female` holds, and
for a generic request (neither reserved flag set) carries neither
`forDisabled` nor `forWomen`; a free spot tagged only
`forElectricCharging` stays eligible for such generic requests. -/
theorem find_spot_respects_constraints (fetch : FetchResult (List Spot))
    (prefs : BookingRequest) (s : Spot) (coords : Option (List Int))
    (h : find_parking_spot fetch prefs = FindOutcome.success s coords) :
    s.status = some "free" ∧
    (∃ cats, s.category = some cats ∧
      (prefs.requires_ev = true → cats.contains "forElectricCharging" = true) ∧
      (prefs.requires_disabled = true → cats.contains "forDisabled" = true) ∧
      (prefs.requires_female = true → cats.contains "forWomen" = true) ∧
      (prefs.requires_disabled = false → prefs.requires_female = false →
        cats.contains "forDisabled" = false ∧ cats.contains "forWomen" = false)) ∧
    (∀ (prefs2 : BookingRequest) (s2 : Spot) (cats2 : List String),
      prefs2.requires_disabled = false → prefs2.requires_female = false →
      s2.status = some "free" → s2.category = some cats2 →
      cats2.contains "forElectricCharging" = true →
      cats2.contains "forDisabled" = false → cats2.contains "forWomen" = false →
      scanSpots prefs2 [s2] = Except.ok [(s2, spotWeight cats2)]) := by
  have generic : ∀ (prefs2 : BookingRequest) (s2 : Spot) (cats2 : List String),
      prefs2.requires_disabled = false → prefs2.requires_female = false →
      s2.status = some "free" → s2.category = some cats2 →
      cats2.contains "forElectricCharging" = true →
      cats2.contains "forDisabled" = false → cats2.contains "forWomen" = false →
      scanSpots prefs2 [s2] = Except.ok [(s2, spotWeight cats2)] := by
    intro prefs2 s2 cats2 hd hf hst hcat hev hcd hcw
    have hm : isMatch prefs2 cats2 = true := by
      rw [isMatch, hd, hf, hev, hcd, hcw]
      simp
    simp [scanSpots, get_clean_value_eq, hst, hcat, hm]
  cases fetch with
  | connError => simp [find_parking_spot] at h
  | ok spots =>
    cases hscan : scanSpots prefs spots with
    | error e => simp [find_parking_spot, hscan] at h
    | ok suitable =>
      cases hsel : selectBestAux none suitable with
      | none => simp [find_parking_spot, hscan, hsel] at h
      | some p =>
        obtain ⟨best, w⟩ := p
        have hinj : best = s := by
          simp [find_parking_spot, hscan, hsel] at h
          exact h.1
        have hmem : (best, w) ∈ suitable := by
          rcases selectBestAux_mem suitable none (best, w) hsel with h1 | h1
          · exact absurd h1 (by simp)
          · exact h1
        obtain ⟨hstat, cats, hcat, hm, _⟩ :=
          scanSpots_mem prefs spots suitable hscan (best, w) hmem
        subst hinj
        refine ⟨hstat, ⟨cats, hcat, ?_, ?_, ?_, ?_⟩, generic⟩
        · intro hev
          by_contra hne
          have hfalse : cats.contains "forElectricCharging" = false := by
            cases hcc : cats.contains "forElectricCharging"
            · rfl
            · exact absurd hcc hne
          have hm2 := hm
          rw [isMatch, hev, hfalse] at hm2
          simp at hm2
        · intro hdis
          by_contra hne
          have hfalse : cats.contains "forDisabled" = false := by
            cases hcc : cats.contains "forDisabled"
            · rfl
            · exact absurd hcc hne
          have hm2 := hm
          rw [isMatch, hdis, hfalse] at hm2
          simp at hm2
        · intro hfem
          by_contra hne
          have hfalse : cats.contains "forWomen" = false := by
            cases hcc : cats.contains "forWomen"
            · rfl
            · exact absurd hcc hne
          have hm2 := hm
          rw [isMatch, hfem, hfalse] at hm2
          simp at hm2
        · intro hdis hfem
          constructor
          · by_contra hne
            have htrue : cats.contains "forDisabled" = true := by
              cases hcc : cats.contains "forDisabled"
              · exact absurd hcc hne
              · rfl
            have hm2 := hm
            rw [isMatch, hdis, hfem, htrue] at hm2
            simp at hm2
          · by_contra hne
            have htrue : cats.contains "forWomen" = true := by
              cases hcc : cats.contains "forWomen"
              · exact absurd hcc hne
              · rfl
            have hm2 := hm
            rw [isMatch, hdis, hfem, htrue] at hm2
            simp at hm2

def reqGen : BookingRequest := ⟨false, false, false⟩

def spotB : Spot :=
  ⟨"urn:B", some "free", some ["forDisabled"], some ⟨some [3, 4]⟩, some "2"⟩

theorem find_spot_respects_constraints_witness :
    spotA.status = some "free" ∧
    (∃ cats, spotA.category = some cats ∧
      (reqGen.requires_ev = true → cats.contains "forElectricCharging" = true) ∧
      (reqGen.requires_disabled = true → cats.contains "forDisabled" = true) ∧
      (reqGen.requires_female = true → cats.contains "forWomen" = true) ∧
      (reqGen.requires_disabled = false → reqGen.requires_female = false →
        cats.contains "forDisabled" = false ∧ cats.contains "forWomen" = false)) ∧
    (∀ (prefs2 : BookingRequest) (s2 : Spot) (cats2 : List String),
      prefs2.requires_disabled = false → prefs2.requires_female = false →
      s2.status = some "free" → s2.category = some cats2 →
      cats2.contains "forElectricCharging" = true →
      cats2.contains "forDisabled" = false → cats2.contains "forWomen" = false →
      scanSpots prefs2 [s2] = Except.ok [(s2, spotWeight cats2)]) :=
  find_spot_respects_constraints (FetchResult.ok [spotA, spotB]) reqGen spotA
    (some [1, 2]) (by rfl)

/-- The claim's selection rule: `s` with weight `w` is the first element of
the eligible list achieving the minimum weight — every earlier eligible
spot weighs strictly more, every later one weighs at least as much. -/
def isFirstMin (l : List (Spot × Nat)) (s : Spot) (w : Nat) : Prop :=
  ∃ l1 l2, l = l1 ++ (s, w) :: l2 ∧ (∀ p ∈ l1, w < p.2) ∧ (∀ p ∈ l2, w ≤ p.2)

lemma selectBestAux_spec :
    ∀ (l : List (Spot × Nat)) (b : Spot) (mw : Nat),
      (selectBestAux (some (b, mw)) l = some (b, mw) ∧ ∀ p ∈ l, mw ≤ p.2) ∨
      (∃ l1 s w l2, l = l1 ++ (s, w) :: l2 ∧ w < mw ∧ (∀ p ∈ l1, w < p.2) ∧
        (∀ p ∈ l2, w ≤ p.2) ∧ selectBestAux (some (b, mw)) l = some (s, w)) := by
  intro l
  induction l with
  | nil =>
    intro b mw
    left
    exact ⟨rfl, by simp⟩
  | cons hd tl ih =>
    intro b mw
    obtain ⟨s0, w0⟩ := hd
    by_cases hw : w0 < mw
    · rcases ih s0 w0 with ⟨heq, hall⟩ | ⟨l1, s, w, l2, hsplit, hlt, h1, h2, heq⟩
      · right
        refine ⟨[], s0, w0, tl, by simp, hw, by simp, hall, ?_⟩
        simpa [selectBestAux, hw] using heq
      · right
        refine ⟨(s0, w0) :: l1, s, w, l2, by simp [hsplit], lt_trans hlt hw, ?_, h2, ?_⟩
        · intro p hp
          rcases List.mem_cons.mp hp with rfl | hp2
          · exact hlt
          · exact h1 p hp2
        · simpa [selectBestAux, hw] using heq
    · have hw2 : mw ≤ w0 := le_of_not_lt hw
      rcases ih b mw with ⟨heq, hall⟩ | ⟨l1, s, w, l2, hsplit, hlt, h1, h2, heq⟩
      · left
        constructor
        · simpa [selectBestAux, hw] using heq
        · intro p hp
          rcases List.mem_cons.mp hp with rfl | hp2
          · exact hw2
          · exact hall p hp2
      · right
        refine ⟨(s0, w0) :: l1, s, w, l2, by simp [hsplit], hlt, ?_, h2, ?_⟩
        · intro p hp
          rcases List.mem_cons.mp hp with rfl | hp2
          · exact lt_of_lt_of_le hlt hw2
          · exact h1 p hp2
        · simpa [selectBestAux, hw] using heq

lemma selectBest_firstMin (hd : Spot × Nat) (tl : List (Spot × Nat)) :
    ∃ s w, selectBestAux none (hd :: tl) = some (s, w) ∧
      isFirstMin (hd :: tl) s w := by
  obtain ⟨s0, w0⟩ := hd
  rcases selectBestAux_spec tl s0 w0 with ⟨heq, hall⟩ | ⟨l1, s, w, l2, hsplit, hlt, h1, h2, heq⟩
  · refine ⟨s0, w0, by simpa [selectBestAux] using heq, [], tl, by simp, by simp, hall⟩
  · refine ⟨s, w, by simpa [selectBestAux] using heq, (s0, w0) :: l1, l2,
      by simp [hsplit], ?_, h2⟩
    intro p hp
    rcases List.mem_cons.mp hp with rfl | hp2
    · exact hlt
    · exact h1 p hp2

/-- C4 counterexample: a sequence with at least one eligible spot for
which `find_parking_spot` does not return the minimum-weight eligible
spot — or any spot.  `spotA` is free and generically eligible (scanned on
its own it yields the eligible pair `(spotA, 0)`), but in a sequence that
also holds a free spot with missing categories the pass raises TypeError
and the endpoint returns `crash`, so the claim fails as stated for this
sequence of spot entities. -/
theorem first_min_crash_counterexample :
    scanSpots reqGen [spotA] = Except.ok [(spotA, spotWeight [])] ∧
    find_parking_spot
      (FetchResult.ok [⟨"urn:W", some "free", none, none, none⟩, spotA]) reqGen =
      FindOutcome.crash :=
  ⟨rfl, rfl⟩

/-- C4 (amended): whenever the matching pass completes (no free spot with
unreadable categories aborted it) and yields a non-empty eligible list,
`find_parking_spot` returns the first eligible spot of minimum weight —
earlier eligible spots weigh strictly more, later ones at least as much
(ties broken by iteration order), and the winning pair's weight is the
count of special tags on the winning spot. -/
theorem find_spot_selects_first_min_weight (spots : List Spot)
    (prefs : BookingRequest) (suitable : List (Spot × Nat))
    (hscan : scanSpots prefs spots = Except.ok suitable)
    (hne : suitable ≠ []) :
    ∃ s w c, find_parking_spot (FetchResult.ok spots) prefs =
        FindOutcome.success s c ∧
      isFirstMin suitable s w ∧
      ∃ cats, s.category = some cats ∧ w = spotWeight cats := by
  match suitable, hne with
  | hd :: tl, _ =>
    obtain ⟨s, w, hsel, hfm⟩ := selectBest_firstMin hd tl
    refine ⟨s, w,
      (match get_clean_value s.location with
       | none => some [0, 0]
       | some loc => loc.coordinates),
      by simp [find_parking_spot, hscan, hsel], hfm, ?_⟩
    obtain ⟨l1, l2, hsplit, _, _⟩ := hfm
    have hmem : (s, w) ∈ hd :: tl := by
      rw [hsplit]
      exact List.mem_append_right _ (List.mem_cons_self _ _)
    obtain ⟨_, cats, hcat, _, hw⟩ :=
      scanSpots_mem prefs spots (hd :: tl) hscan (s, w) hmem
    exact ⟨cats, hcat, hw⟩

def spotEV : Spot :=
  ⟨"urn:E", some "free", some ["forElectricCharging"], some ⟨some [5, 6]⟩, some "3"⟩

theorem find_spot_selects_first_min_weight_witness :
    ∃ s w c, find_parking_spot (FetchResult.ok [spotEV, spotA]) reqGen =
        FindOutcome.success s c ∧
      isFirstMin [(spotEV, 1), (spotA, 0)] s w ∧
      ∃ cats, s.category = some cats ∧ w = spotWeight cats :=
  find_spot_selects_first_min_weight [spotEV, spotA] reqGen
    [(spotEV, 1), (spotA, 0)] (by rfl) (by simp)

/-- C5 counterexample: a spot with `status = free` but a missing
`categories` attribute is not treated as ineligible — the membership test
`"forElectricCharging" in None` raises TypeError, so the whole matching
pass crashes and no result is produced for the remaining well-formed spot
`spotA`. -/
theorem scan_crash_on_missing_categories_counterexample :
    find_parking_spot
      (FetchResult.ok [⟨"urn:S", some "free", none, none, none⟩, spotA]) reqGen =
      FindOutcome.crash := by
  rfl

/-- C5 (amended): a spot whose `status` attribute is missing or unreadable
is skipped as ineligible without crashing the scan, but a spot with
status `free` whose `categories` attribute is missing or unreadable makes
the scan raise an unhandled TypeError, aborting the whole matching pass —
no result is returned for the remaining spots. -/
theorem unreadable_attribute_handling (prefs : BookingRequest) (t s : Spot)
    (rest : List Spot) (ht : t.status = none) (hs : s.status = some "free")
    (hc : s.category = none) :
    find_parking_spot (FetchResult.ok (t :: rest)) prefs =
      find_parking_spot (FetchResult.ok rest) prefs ∧
    find_parking_spot (FetchResult.ok (s :: rest)) prefs = FindOutcome.crash := by
  constructor
  · have hskip : scanSpots prefs (t :: rest) = scanSpots prefs rest := by
      rw [scanSpots]
      simp [get_clean_value_eq, ht]
    simp [find_parking_spot, hskip]
  · have hcrash : scanSpots prefs (s :: rest) = Except.error () := by
      rw [scanSpots]
      simp [get_clean_value_eq, hs, hc]
    simp [find_parking_spot, hcrash]

theorem unreadable_attribute_handling_witness :
    find_parking_spot
        (FetchResult.ok [⟨"urn:T", none, some [], none, none⟩, spotA]) reqGen =
      find_parking_spot (FetchResult.ok [spotA]) reqGen ∧
    find_parking_spot
        (FetchResult.ok [⟨"urn:U", some "free", none, none, none⟩, spotA]) reqGen =
      FindOutcome.crash :=
  unreadable_attribute_handling reqGen ⟨"urn:T", none, some [], none, none⟩
    ⟨"urn:U", some "free", none, none, none⟩ [spotA] rfl rfl rfl

/-- C6 counterexample: `book_parking_spot` does not fall back to
coordinates `[0,0]` when the re-read spot has no `location` — the direct
access `response['location']['value']['coordinates']` raises an unhandled
KeyError, so the operation fails and no event is broadcast. -/
theorem book_no_coordinate_fallback_counterexample :
    book_parking_spot "urn:S"
      (ReadResult.found ⟨"urn:S", some "free", some [], none, none⟩)
      PatchResult.ok = (BookOutcome.crash, []) := by
  rfl

/-- C6 (amended): `find_parking_spot` reports coordinates `[0,0]` when the
selected eligible spot's `location` is absent, but `book_parking_spot` has
no such fallback: it fails with an unhandled KeyError when the re-read
spot lacks `location`. -/
theorem coordinates_fallback_in_find_only (prefs : BookingRequest)
    (spots : List Spot) (s sp : Spot) (c : Option (List Int)) (spotId : String)
    (patch : PatchResult)
    (hf : find_parking_spot (FetchResult.ok spots) prefs = FindOutcome.success s c)
    (hl : s.location = none) (hb : sp.location = none) :
    c = some [0, 0] ∧
    book_parking_spot spotId (ReadResult.found sp) patch =
      (BookOutcome.crash, []) := by
  constructor
  · cases hscan : scanSpots prefs spots with
    | error e => simp [find_parking_spot, hscan] at hf
    | ok suitable =>
      cases hsel : selectBestAux none suitable with
      | none => simp [find_parking_spot, hscan, hsel] at hf
      | some p =>
        obtain ⟨best, w⟩ := p
        simp [find_parking_spot, hscan, hsel] at hf
        obtain ⟨hbs, hcc⟩ := hf
        subst hbs
        rw [get_clean_value_eq, hl] at hcc
        exact hcc.symm
  · simp [book_parking_spot, hb]

theorem coordinates_fallback_in_find_only_witness :
    (some [0, 0] : Option (List Int)) = some [0, 0] ∧
    book_parking_spot "urn:X"
      (ReadResult.found ⟨"urn:V", some "free", some [], none, none⟩)
      PatchResult.ok = (BookOutcome.crash, []) :=
  coordinates_fallback_in_find_only reqGen
    [⟨"urn:V", some "free", some [], none, none⟩]
    ⟨"urn:V", some "free", some [], none, none⟩
    ⟨"urn:V", some "free", some [], none, none⟩
    (some [0, 0]) "urn:X" PatchResult.ok (by rfl) rfl rfl

/-- C7 counterexample: with machines "M1" and "M2" registered and the send
to "M1" failing, the broadcast loop aborts before reaching "M2" — the
healthy connection "M2" receives nothing — and the failing connection
"M1" is not removed: the registry still holds both connections. -/
theorem send_failure_counterexample :
    ConnectionManager.send_coordinates ⟨["M1", "M2"]⟩ (fun c => c != "M1") =
      (([], some "M1"), ⟨["M1", "M2"]⟩) := by
  rfl

/-- C7 (amended): a failing send does block delivery to the remaining
connections — the exception aborts the loop, so exactly the connections
before the failing one receive the event — and the failing connection is
not removed from the registry, which is returned unchanged (removal only
happens in the websocket handler's disconnect path). -/
theorem send_failure_blocks_rest (sendOk : String → Bool)
    (pre post : List String) (c : String)
    (hpre : ∀ p ∈ pre, sendOk p = true) (hc : sendOk c = false) :
    ConnectionManager.send_coordinates ⟨pre ++ c :: post⟩ sendOk =
      ((pre, some c), ⟨pre ++ c :: post⟩) := by
  have key : ∀ (l : List String), (∀ p ∈ l, sendOk p = true) →
      sendAll sendOk (l ++ c :: post) = (l, some c) := by
    intro l
    induction l with
    | nil =>
      intro _
      simp [sendAll, hc]
    | cons a tl ih =>
      intro hall
      have ha : sendOk a = true := hall a (List.mem_cons_self _ _)
      have htl := ih (fun p hp => hall p (List.mem_cons_of_mem _ hp))
      simp [sendAll, ha, htl]
  simp [ConnectionManager.send_coordinates, key pre hpre]

theorem send_failure_blocks_rest_witness :
    ConnectionManager.send_coordinates ⟨["M0"] ++ "M1" :: ["M2"]⟩
        (fun c => c != "M1") =
      ((["M0"], some "M1"), ⟨["M0"] ++ "M1" :: ["M2"]⟩) :=
  send_failure_blocks_rest (fun c => c != "M1") ["M0"] ["M2"] "M1"
    (by decide) (by decide)

/-- C8: `delete_garage` deletes each spot individually; a spot deletion the
store does not confirm with 204 does not abort the operation and is
excluded from the reported `deletedSpots`/`spotsDeletedCount` (only
store-confirmed deletions are counted), while a non-204 reply to the final
garage deletion makes the whole call report an error even though the
confirmed spot deletions (second component) already happened at the
store. -/
theorem delete_garage_confirmed_only (garageId : String) (spotIds : List String)
    (delStatus : String → Nat) (gs : Nat) :
    (gs = 204 →
      delete_garage garageId (FetchResult.ok spotIds) delStatus gs =
        (DeleteOutcome.ok ⟨garageId,
            spotIds.filter (fun sid => delStatus sid == 204),
            (spotIds.filter (fun sid => delStatus sid == 204)).length⟩,
         spotIds.filter (fun sid => delStatus sid == 204))) ∧
    (gs ≠ 204 →
      delete_garage garageId (FetchResult.ok spotIds) delStatus gs =
        (DeleteOutcome.garageError gs,
         spotIds.filter (fun sid => delStatus sid == 204))) := by
  constructor
  · intro h
    subst h
    simp [delete_garage]
  · intro h
    simp [delete_garage, h]

def demoDelStatus : String → Nat := fun sid => if sid = "urn:S2" then 500 else 204

theorem delete_garage_confirmed_only_witness :
    delete_garage "urn:G1" (FetchResult.ok ["urn:S1", "urn:S2"]) demoDelStatus 204 =
      (DeleteOutcome.ok ⟨"urn:G1", ["urn:S1"], 1⟩, ["urn:S1"]) := by
  have h := (delete_garage_confirmed_only "urn:G1" ["urn:S1", "urn:S2"]
    demoDelStatus 204).1 rfl
  rw [h]
  rfl

/-- C9 counterexample: not every operation outside `delete_garage`
addresses `ORION_URL` directly — the status PATCH of `book_parking_spot`
(and of the clear endpoints) hardcodes host `localhost` instead, so its
URL does not start with `ORION_URL`. -/
theorem patch_url_not_orion_counterexample :
    startsWithOrion (patchAttrsUrl "urn:S1") = false := by
  decide

/-- C9 (amended): every store URL `delete_garage` builds — the spot query
and both per-entity deletes — appends to `ORION_URL` (which already ends
in `/entities`), producing a duplicated `/entities/entities` path segment;
no other operation's URL contains that duplication: the spot fetch,
booking re-read and garage creation address `ORION_URL` directly, while
the status PATCHes hardcode the same single-`/entities` path on host
`localhost` instead of referencing `ORION_URL`. -/
theorem delete_garage_url_duplication (s g : String) :
    deleteGarageQueryUrl = ORION_URL ++ "/entities" ∧
    deleteSpotUrl s = ORION_URL ++ "/entities/" ++ s ∧
    deleteGarageUrl g = ORION_URL ++ "/entities/" ++ g ∧
    urlHasDupEntities deleteGarageQueryUrl = true ∧
    urlHasDupEntities (deleteSpotUrl "urn:S1") = true ∧
    urlHasDupEntities (deleteGarageUrl "urn:G1") = true ∧
    findSpotsUrl = ORION_URL ++ "?type=SmartIndoorParkingSpot" ∧
    bookReadUrl s = ORION_URL ++ "/" ++ s ∧
    createGarageUrl = ORION_URL ∧
    urlHasDupEntities findSpotsUrl = false ∧
    urlHasDupEntities (bookReadUrl "urn:S1") = false ∧
    urlHasDupEntities (patchAttrsUrl "urn:S1") = false ∧
    urlHasDupEntities createGarageUrl = false ∧
    startsWithOrion findSpotsUrl = true ∧
    startsWithOrion (bookReadUrl "urn:S1") = true ∧
    startsWithOrion createGarageUrl = true ∧
    startsWithOrion (patchAttrsUrl "urn:S1") = false ∧
    patchAttrsUrl s = "http://localhost:1026/ngsi-ld/v1/entities/" ++ s ++ "/attrs" :=
  ⟨rfl, rfl, rfl, by decide, by decide, by decide, rfl, rfl, rfl, by decide,
   by decide, by decide, by decide, by decide, by decide, by decide, by decide, rfl⟩

/-- C10: on a successful run, `clear_parking_spot` reports in its message
the total number of spots the fetch returned — already-free spots, which
are never patched, included — while the spots actually patched back to
free (second component) are exactly those whose status was not `free`. -/
theorem clear_reports_fetched_total (spots : List Spot)
    (patchRes : String → PatchResult)
    (h : ∀ s ∈ spots, get_clean_value s.status ≠ some "free" →
      patchRes s.id = PatchResult.ok) :
    clear_parking_spot (FetchResult.ok spots) patchRes =
      (ClearOutcome.done spots.length,
       (spots.filter
         (fun s => !(get_clean_value s.status == some "free"))).map
         (fun s => s.id)) := by
  have key : ∀ (l : List Spot),
      (∀ s ∈ l, get_clean_value s.status ≠ some "free" →
        patchRes s.id = PatchResult.ok) →
      clearLoop patchRes l = Except.ok
        ((l.filter (fun s => !(get_clean_value s.status == some "free"))).map
          (fun s => s.id)) := by
    intro l
    induction l with
    | nil =>
      intro _
      rfl
    | cons a tl ih =>
      intro hall
      have htl := ih (fun s hs => hall s (List.mem_cons_of_mem _ hs))
      by_cases hfree : get_clean_value a.status = some "free"
      · simp [clearLoop, hfree, htl]
      · have hp : patchRes a.id = PatchResult.ok :=
          hall a (List.mem_cons_self _ _) hfree
        simp [clearLoop, hfree, hp, htl]
  simp [clear_parking_spot, key spots h]

def occSpot : Spot := ⟨"urn:O", some "occupied", some [], some ⟨some [9, 9]⟩, some "9"⟩

theorem clear_reports_fetched_total_witness :
    clear_parking_spot (FetchResult.ok [spotA, occSpot])
        (fun _ => PatchResult.ok) =
      (ClearOutcome.done 2, ["urn:O"]) := by
  have h := clear_reports_fetched_total [spotA, occSpot]
    (fun _ => PatchResult.ok) (fun s _ _ => rfl)
  rw [h]
  rfl
